import Mathlib

/-!
Verification development for the NetworkEyes plugin lifecycle manager
(`lifecycle_manager_old.py`).

The manager exposes three operations (install, delete, status) over two
side-effecting resources: a filesystem holding a per-user plugin directory
tree, and a relational store accessed through a transactional session
(uncommitted `pending` state vs `committed` state; `commit` publishes the
pending state, `rollback` resets it).

The embedding is a state-passing translation of the Python source:

* the filesystem is a set of directory paths plus a path-indexed file map
  (`FS`); paths are component lists;
* the database session is a pair of `DBState`s (`Session`);
* raw operations that can raise in Python (directory creation, file copy,
  SQL execution, `rmtree`, `stat`) are given explicit failure switches in
  an environment record (`Env`); each Python `try/except` block is
  translated as the corresponding case split, so a raised error follows
  exactly the handler the source gives it;
* every helper returns the record shape of the Python result dict.
-/

/-- Static plugin descriptor, `PLUGIN_DATA` in the source. -/
structure PluginData where
  name : String
  description : String
  version : String
  type : String
  icon : String
  category : String
  official : Bool
  author : String
  compatibility : String
  scope : String
  bundle_method : String
  bundle_location : String
  is_local : Bool
  long_description : String
  plugin_slug : String
  source_type : String
  source_url : String
  update_check_url : String
  last_update_check : Option String
  update_available : Bool
  latest_version : Option String
  installation_type : String
  permissions : List String
deriving DecidableEq

/-- The hard-coded plugin descriptor compiled into the manager. -/
def PLUGIN_DATA : PluginData :=
  { name := "BrainDriveNetwork"
  , description := "Network status monitoring and connectivity checking for BrainDrive services"
  , version := "1.0.6"
  , type := "frontend"
  , icon := "NetworkCheck"
  , category := "monitoring"
  , official := false
  , author := "DJJones66"
  , compatibility := "1.0.0"
  , scope := "BrainDriveNetwork"
  , bundle_method := "webpack"
  , bundle_location := "dist/remoteEntry.js"
  , is_local := false
  , long_description := "Monitor network connectivity and status of BrainDrive services with real-time monitoring capabilities"
  , plugin_slug := "BrainDriveNetwork"
  , source_type := "github"
  , source_url := "https://github.com/DJJones66/NetworkEyes"
  , update_check_url := "https://api.github.com/repos/DJJones66/NetworkEyes/releases/latest"
  , last_update_check := none
  , update_available := false
  , latest_version := none
  , installation_type := "remote"
  , permissions := ["network.read", "storage.read", "storage.write"] }

/-- Static module descriptor (one entry of `MODULE_DATA`); the scalar
fields used by the record store and the claims. -/
structure ModuleDescriptor where
  name : String
  display_name : String
  description : String
  icon : String
  category : String
  priority : Nat
  tags : List String
deriving DecidableEq

/-- The hard-coded module descriptor list compiled into the manager. -/
def MODULE_DATA : List ModuleDescriptor :=
  [ { name := "ComponentNetworkStatus"
    , display_name := "Network Status Monitor"
    , description := "Real-time network connectivity monitoring dashboard"
    , icon := "NetworkCheck"
    , category := "monitoring"
    , priority := 1
    , tags := ["monitoring", "network", "status", "connectivity", "eyes"] } ]

/-- Persisted plugin row (the columns the lifecycle manager reads or
filters on). -/
structure PluginRow where
  id : String
  name : String
  description : String
  version : String
  enabled : Bool
  status : String
  user_id : String
  plugin_slug : String
  created_at : String
  updated_at : String
deriving DecidableEq

/-- Persisted module row (the columns the lifecycle manager reads or
filters on). -/
structure ModuleRow where
  id : String
  plugin_id : String
  name : String
  display_name : String
  enabled : Bool
  user_id : String
  created_at : String
  updated_at : String
deriving DecidableEq

/-- Contents of the two related tables. -/
structure DBState where
  plugins : List PluginRow
  modules : List ModuleRow
deriving DecidableEq

/-- A transactional session: statements execute against `pending`;
`commit` publishes it, `rollback` discards it. -/
structure Session where
  committed : DBState
  pending : DBState
deriving DecidableEq

/-- Publish the pending state (`db.commit()`). -/
def sessionCommit (s : Session) : Session :=
  { committed := s.pending, pending := s.pending }

/-- Discard the pending state (`db.rollback()`). -/
def sessionRollback (s : Session) : Session :=
  { committed := s.committed, pending := s.committed }

/-- Filesystem paths as component lists (relative to the plugins base
directory). -/
abbrev FPath := List String

/-- Path `p` reaches `q`: `p` is an initial segment of `q`, so removing
the tree rooted at `p` removes `q`. -/
def leadsTo : FPath → FPath → Bool
  | [], _ => true
  | _ :: _, [] => false
  | a :: as, b :: bs => a == b && leadsTo as bs

/-- Payload of the on-disk manifest `plugin_metadata.json`: descriptor,
module list, owning user and install timestamp. -/
structure ManifestData where
  plugin_data : PluginData
  module_data : List ModuleDescriptor
  installed_for_user : String
  installed_at : String
deriving DecidableEq

/-- Typed file contents: the JSON manifest the manager writes, or any
other (opaque) file payload. -/
inductive FileContent where
  | manifestFile (m : ManifestData)
  | plain
deriving DecidableEq

instance : Inhabited FileContent := ⟨FileContent.plain⟩

/-- Filesystem snapshot: a list of existing directories and a
path-to-content file association (first binding wins). -/
structure FS where
  dirs : List FPath
  files : List (FPath × FileContent)
deriving DecidableEq

/-- Directory existence probe (`Path.exists` on a directory). -/
def dirExists (fs : FS) (p : FPath) : Bool :=
  fs.dirs.any (fun d => d == p)

/-- Read a file's content, `none` when absent. -/
def readFile (fs : FS) (p : FPath) : Option FileContent :=
  (fs.files.find? (fun e => e.1 == p)).map (fun e => e.2)

/-- File existence probe. -/
def fileExists (fs : FS) (p : FPath) : Bool :=
  (readFile fs p).isSome

/-- Write (create or overwrite) a file. -/
def writeFile (fs : FS) (p : FPath) (c : FileContent) : FS :=
  { fs with files := (p, c) :: fs.files.filter (fun e => !(e.1 == p)) }

/-- Create a directory if missing (`mkdir(exist_ok=True)`). -/
def addDir (fs : FS) (p : FPath) : FS :=
  if dirExists fs p then fs else { fs with dirs := p :: fs.dirs }

/-- Recursively remove the tree rooted at `p` (`shutil.rmtree`). -/
def rmtree (fs : FS) (p : FPath) : FS :=
  { dirs := fs.dirs.filter (fun d => !(leadsTo p d))
  , files := fs.files.filter (fun e => !(leadsTo p e.1)) }

/-- Recursively copy the tree rooted at `src` onto `tgt`
(`shutil.copytree(..., dirs_exist_ok=True)`): every directory and file
under `src` reappears under `tgt`; clashing target files are
overwritten, everything else is kept (merge semantics). -/
def copyTree (fs : FS) (src tgt : FPath) : FS :=
  let movedDirs := (fs.dirs.filter (fun d => leadsTo src d)).map
    (fun d => tgt ++ d.drop src.length)
  let movedFiles := (fs.files.filter (fun e => leadsTo src e.1)).map
    (fun e => (tgt ++ e.1.drop src.length, e.2))
  { dirs := movedDirs ++ fs.dirs
  , files := movedFiles ++ fs.files.filter
      (fun e => movedFiles.all (fun m => !(m.1 == e.1))) }

/-- Location of the manager's own plugin files (`Path(__file__).parent`),
from which installs copy. -/
def source_dir : FPath := ["NetworkEyes_source"]

/-- The per-user plugin directory `{base}/{user_id}/{plugin_slug}`. -/
def userPluginDirPath (user_id : String) : FPath :=
  [user_id, PLUGIN_DATA.plugin_slug]

/-- Environment of one operation run: the wall-clock timestamp and one
failure switch per raw operation that can raise in the source (the
database statements, the filesystem calls). A `true` switch means the
corresponding raw call raises when executed. -/
structure Env where
  now : String
  mkdirFails : Bool
  copyFails : Bool
  insertPluginFails : Bool
  insertModuleFails : Bool
  deleteModulesFails : Bool
  deletePluginFails : Bool
  checkQueryFails : Bool
  moduleQueryFails : Bool
  statFails : Bool
  rmFails : Bool
deriving DecidableEq

/-- Combined mutable state threaded through an operation. -/
structure World where
  fs : FS
  db : Session
deriving DecidableEq

/-- Result of `_check_existing_plugin`: the three dict shapes the source
returns (row found; no row; query raised, reported as not existing with
the error attached). -/
inductive CheckResult where
  | found (plugin_id : String) (info : PluginRow)
  | absent
  | errored (msg : String)
deriving DecidableEq

/-- Result dict of `_copy_plugin_files`. -/
structure CopyResult where
  success : Bool
  copied_files : List String := []
  error : Option String := none
deriving DecidableEq

/-- Result dict of `_create_database_records`. -/
structure DbCreateResult where
  success : Bool
  plugin_id : Option String := none
  modules_created : List String := []
  error : Option String := none
deriving DecidableEq

/-- Result dict of `_delete_database_records`. -/
structure DbDeleteResult where
  success : Bool
  deleted_modules : Nat := 0
  error : Option String := none
deriving DecidableEq

/-- Result dict of `_validate_installation`. -/
structure ValidationResult where
  valid : Bool
  error : Option String := none
deriving DecidableEq

/-- Result dict of `_check_modules_status` (the exception branch of the
source omits `all_enabled` and `modules`; the defaults stand for the
missing keys). -/
structure ModulesStatus where
  expected_count : Nat
  actual_count : Nat
  enabled_count : Nat
  all_loaded : Bool
  all_enabled : Bool := false
  modules : List (String × String × Bool) := []
deriving DecidableEq

/-- Result dict of `install_plugin`. -/
structure InstallResult where
  success : Bool
  error : Option String := none
  plugin_id : Option String := none
  plugin_slug : Option String := none
  modules_created : Option (List String) := none
  plugin_directory : Option FPath := none
deriving DecidableEq

/-- Result dict of `delete_plugin`. -/
structure DeleteResult where
  success : Bool
  error : Option String := none
  plugin_id : Option String := none
  deleted_modules : Option Nat := none
deriving DecidableEq

/-- Result dict of `get_plugin_status`. -/
structure StatusResult where
  «exists» : Bool
  status : String
  plugin_id : Option String := none
  plugin_info : Option PluginRow := none
  files_exist : Option Bool := none
  modules_status : Option ModulesStatus := none
  plugin_directory : Option FPath := none
  error : Option String := none
deriving DecidableEq

/-- Check whether the plugin already exists for a user
(`_check_existing_plugin`): query the plugin table for
`(user_id, plugin_slug)` against the session's pending state and fetch
the first row; a raised query error is caught and reported as
non-existence with the error message attached. -/
def check_existing_plugin (env : Env) (user_id : String) (s : Session) : CheckResult :=
  if env.checkQueryFails then .errored "check query failed"
  else
    match s.pending.plugins.find?
        (fun p => p.user_id == user_id && p.plugin_slug == PLUGIN_DATA.plugin_slug) with
    | some row => .found row.id row
    | none => .absent

/-- Create the user-specific plugin directory with `dist` and `assets`
subdirectories (`_create_user_plugin_directory`); a raised error is
caught and reported as `none`. -/
def create_user_plugin_directory (env : Env) (user_id : String) (fs : FS) :
    FS × Option FPath :=
  if env.mkdirFails then (fs, none)
  else
    let user_dir : FPath := [user_id]
    let plugin_dir : FPath := user_dir ++ [PLUGIN_DATA.plugin_slug]
    let fs1 := addDir fs user_dir
    let fs2 := addDir fs1 plugin_dir
    let fs3 := addDir fs2 (plugin_dir ++ ["dist"])
    let fs4 := addDir fs3 (plugin_dir ++ ["assets"])
    (fs4, some plugin_dir)

/-- One step of the file-copy loop of `_copy_plugin_files`: copy a
single allow-listed file when it exists at the source. -/
def copyOneFile (src tgt : FPath) (acc : FS × List String) (f : String) :
    FS × List String :=
  match readFile acc.1 (src ++ [f]) with
  | some c => (writeFile acc.1 (tgt ++ [f]) c, acc.2 ++ [f])
  | none => acc

/-- One step of the directory-copy loop of `_copy_plugin_files`: copy a
single allow-listed directory tree when it exists at the source,
removing the destination first when updating. -/
def copyOneDir (src tgt : FPath) (update : Bool) (acc : FS × List String)
    (d : String) : FS × List String :=
  if dirExists acc.1 (src ++ [d]) then
    let fs0 := if dirExists acc.1 (tgt ++ [d]) && update
      then rmtree acc.1 (tgt ++ [d]) else acc.1
    (copyTree fs0 (src ++ [d]) (tgt ++ [d]), acc.2 ++ [d ++ "/"])
  else acc

/-- The manifest `_copy_plugin_files` writes for a user. -/
def writtenManifest (env : Env) (user_id : String) : ManifestData :=
  { plugin_data := PLUGIN_DATA
  , module_data := MODULE_DATA
  , installed_for_user := user_id
  , installed_at := env.now }

/-- Copy plugin files into the user directory and write the
`plugin_metadata.json` manifest (`_copy_plugin_files`); a raised error
is caught and reported as a failure dict. -/
def copy_plugin_files (env : Env) (user_id : String) (target_dir : FPath)
    (fs : FS) (update : Bool := false) : FS × CopyResult :=
  if env.copyFails then (fs, { success := false, error := some "copy failed" })
  else
    let files_to_copy := ["package.json", "README.md"]
    let dirs_to_copy := ["dist", "src", "public"]
    let acc1 := files_to_copy.foldl (copyOneFile source_dir target_dir) (fs, [])
    let acc2 := dirs_to_copy.foldl (copyOneDir source_dir target_dir update) acc1
    let fs3 := writeFile acc2.1 (target_dir ++ ["plugin_metadata.json"])
      (.manifestFile (writtenManifest env user_id))
    (fs3, { success := true, copied_files := acc2.2 ++ ["plugin_metadata.json"] })

/-- The deterministically derived plugin record id
`{user_id}_{plugin_slug}`. -/
def derivedPluginId (user_id : String) : String :=
  user_id ++ "_" ++ PLUGIN_DATA.plugin_slug

/-- The deterministically derived module record id
`{user_id}_{plugin_slug}_{module_name}`. -/
def derivedModuleId (user_id module_name : String) : String :=
  user_id ++ "_" ++ PLUGIN_DATA.plugin_slug ++ "_" ++ module_name

/-- The plugin row `_create_database_records` inserts. -/
def newPluginRow (user_id current_time : String) : PluginRow :=
  { id := derivedPluginId user_id
  , name := PLUGIN_DATA.name
  , description := PLUGIN_DATA.description
  , version := PLUGIN_DATA.version
  , enabled := true
  , status := "activated"
  , user_id := user_id
  , plugin_slug := PLUGIN_DATA.plugin_slug
  , created_at := current_time
  , updated_at := current_time }

/-- The module row `_create_database_records` inserts for one
descriptor. -/
def newModuleRow (user_id current_time : String) (md : ModuleDescriptor) :
    ModuleRow :=
  { id := derivedModuleId user_id md.name
  , plugin_id := derivedPluginId user_id
  , name := md.name
  , display_name := md.display_name
  , enabled := true
  , user_id := user_id
  , created_at := current_time
  , updated_at := current_time }

/-- One step of the module-insert loop of `_create_database_records`. -/
def insertOneModule (user_id current_time : String)
    (acc : Session × List String) (md : ModuleDescriptor) : Session × List String :=
  ( { acc.1 with pending := { acc.1.pending with
        modules := acc.1.pending.modules ++ [newModuleRow user_id current_time md] } }
  , acc.2 ++ [derivedModuleId user_id md.name] )

/-- Insert the plugin row then one module row per descriptor into the
session's pending state (`_create_database_records`); a raised insert
error is caught and reported as a failure dict. A module-insert error
strikes after the plugin row was already inserted, so the pending state
keeps the partial insert (nothing is committed here). -/
def create_database_records (env : Env) (user_id : String) (s : Session) :
    Session × DbCreateResult :=
  let current_time := env.now
  let plugin_id := derivedPluginId user_id
  if env.insertPluginFails then
    (s, { success := false, error := some "insert plugin failed" })
  else
    let s1 : Session := { s with pending := { s.pending with
      plugins := s.pending.plugins ++ [newPluginRow user_id current_time] } }
    if env.insertModuleFails then
      (s1, { success := false, error := some "insert module failed" })
    else
      let acc := MODULE_DATA.foldl (insertOneModule user_id current_time) (s1, [])
      (acc.1, { success := true, plugin_id := some plugin_id, modules_created := acc.2 })

/-- Delete module rows by `(plugin_id, user_id)` then the plugin row by
`(id, user_id)` from the session's pending state
(`_delete_database_records`); zero rows affected by the plugin delete is
reported as "Plugin not found or not owned by user" even though the
module deletions already executed; a raised statement error is caught
and reported as a failure dict. -/
def delete_database_records (env : Env) (user_id plugin_id : String) (s : Session) :
    Session × DbDeleteResult :=
  if env.deleteModulesFails then
    (s, { success := false, error := some "delete modules failed" })
  else
    let moduleHit := fun (m : ModuleRow) => m.plugin_id == plugin_id && m.user_id == user_id
    let deleted_modules := (s.pending.modules.filter moduleHit).length
    let s1 : Session := { s with pending := { s.pending with
      modules := s.pending.modules.filter (fun m => !(moduleHit m)) } }
    if env.deletePluginFails then
      (s1, { success := false, error := some "delete plugin failed" })
    else
      let pluginHit := fun (p : PluginRow) => p.id == plugin_id && p.user_id == user_id
      let rowcount := (s1.pending.plugins.filter pluginHit).length
      let s2 : Session := { s1 with pending := { s1.pending with
        plugins := s1.pending.plugins.filter (fun p => !(pluginHit p)) } }
      if rowcount == 0 then
        (s2, { success := false, error := some "Plugin not found or not owned by user" })
      else
        (s2, { success := true, deleted_modules := deleted_modules })

/-- Validate the installed directory (`_validate_installation`): require
`package.json` and `plugin_metadata.json`, then parse the manifest and
check its recorded user id; read-only. -/
def validate_installation (env : Env) (user_id : String) (plugin_dir : FPath)
    (fs : FS) : ValidationResult :=
  let required_files := ["package.json", "plugin_metadata.json"]
  let missing_files := required_files.filter
    (fun f => !(fileExists fs (plugin_dir ++ [f])))
  if !missing_files.isEmpty then
    { valid := false
    , error := some ("Missing required files: " ++ String.intercalate ", " missing_files) }
  else
    match readFile fs (plugin_dir ++ ["plugin_metadata.json"]) with
    | some (.manifestFile m) =>
      if m.installed_for_user != user_id then
        { valid := false, error := some "Metadata file has incorrect user ID" }
      else
        { valid := true }
    | _ =>
      { valid := false, error := some "Invalid metadata file: decode error" }

/-- Count module rows for the plugin against the static expected count
(`_check_modules_status`); a raised query error is caught and reported
as the zeroed dict with `all_loaded = False`. -/
def check_modules_status (env : Env) (user_id plugin_id : String) (s : Session) :
    ModulesStatus :=
  if env.moduleQueryFails then
    { expected_count := 0, actual_count := 0, enabled_count := 0, all_loaded := false }
  else
    let mods := s.pending.modules.filter
      (fun m => m.plugin_id == plugin_id && m.user_id == user_id)
    let expected_modules := MODULE_DATA.length
    let actual_modules := mods.length
    let enabled_modules := (mods.filter (fun m => m.enabled)).length
    { expected_count := expected_modules
    , actual_count := actual_modules
    , enabled_count := enabled_modules
    , all_loaded := actual_modules == expected_modules
    , all_enabled := enabled_modules == actual_modules
    , modules := mods.map (fun m => (m.id, m.name, m.enabled)) }

/-- Raw recursive removal, which can raise (`shutil.rmtree`). -/
def rmtreeE (env : Env) (fs : FS) (p : FPath) : Except String FS :=
  if env.rmFails then .error "rmtree failed" else .ok (rmtree fs p)

/-- Remove the plugin directory and contents
(`_cleanup_user_directory`): remove the tree when the directory exists;
any raised error is caught, logged and swallowed, so the call always
returns normally (`.ok`). -/
def cleanup_user_directory (env : Env) (fs : FS) (plugin_dir : FPath) :
    Except String FS :=
  match (if dirExists fs plugin_dir then rmtreeE env fs plugin_dir else .ok fs) with
  | .ok fs1 => .ok fs1
  | .error _ => .ok fs

/-- Run the cleanup step for its filesystem effect (it never raises). -/
def cleanupRun (env : Env) (fs : FS) (plugin_dir : FPath) : FS :=
  match cleanup_user_directory env fs plugin_dir with
  | .ok fs1 => fs1
  | .error _ => fs

/-- Install the plugin for a user (`install_plugin`): existence check,
directory creation, file copy, record insertion, manifest validation,
commit; failed copy or insert triggers directory cleanup, failed
validation additionally rolls the session back. -/
def install_plugin (env : Env) (user_id : String) (w : World) :
    World × InstallResult :=
  match check_existing_plugin env user_id w.db with
  | .found pid _ =>
    (w, { success := false
        , error := some ("Plugin already installed for user " ++ user_id)
        , plugin_id := some pid })
  | _ =>
    match create_user_plugin_directory env user_id w.fs with
    | (fs1, none) =>
      ({ w with fs := fs1 },
       { success := false, error := some "Failed to create user plugin directory" })
    | (fs1, some user_plugin_dir) =>
      let copyOut := copy_plugin_files env user_id user_plugin_dir fs1 false
      if !copyOut.2.success then
        let fs3 := cleanupRun env copyOut.1 user_plugin_dir
        ({ w with fs := fs3 }, { success := false, error := copyOut.2.error })
      else
        let dbOut := create_database_records env user_id w.db
        if !dbOut.2.success then
          let fs3 := cleanupRun env copyOut.1 user_plugin_dir
          ({ fs := fs3, db := dbOut.1 }, { success := false, error := dbOut.2.error })
        else
          let validation := validate_installation env user_id user_plugin_dir copyOut.1
          if !validation.valid then
            let db2 := sessionRollback dbOut.1
            let fs3 := cleanupRun env copyOut.1 user_plugin_dir
            ({ fs := fs3, db := db2 }, { success := false, error := validation.error })
          else
            let db2 := sessionCommit dbOut.1
            ({ fs := copyOut.1, db := db2 },
             { success := true
             , plugin_id := dbOut.2.plugin_id
             , plugin_slug := some PLUGIN_DATA.plugin_slug
             , modules_created := some dbOut.2.modules_created
             , plugin_directory := some user_plugin_dir })

/-- The part of `delete_plugin` that runs once the existence check has
produced a plugin id: delete the records, and only on success remove the
directory and commit; a failed record deletion is returned as the
operation's result with no directory removal, no commit and no
rollback. -/
def delete_plugin_records_phase (env : Env) (user_id plugin_id : String)
    (w : World) : World × DeleteResult :=
  let delOut := delete_database_records env user_id plugin_id w.db
  if !delOut.2.success then
    ({ w with db := delOut.1 }, { success := false, error := delOut.2.error })
  else
    let user_plugin_dir := userPluginDirPath user_id
    let fs1 := cleanupRun env w.fs user_plugin_dir
    let db2 := sessionCommit delOut.1
    ({ fs := fs1, db := db2 },
     { success := true, plugin_id := some plugin_id
     , deleted_modules := some delOut.2.deleted_modules })

/-- Delete the plugin for a user (`delete_plugin`): existence check,
record deletion, directory removal, commit. -/
def delete_plugin (env : Env) (user_id : String) (w : World) :
    World × DeleteResult :=
  match check_existing_plugin env user_id w.db with
  | .found plugin_id _ => delete_plugin_records_phase env user_id plugin_id w
  | _ => (w, { success := false, error := some "Plugin not found for user" })

/-- Raw directory existence probe, which can raise
(`user_plugin_dir.exists()`). -/
def dirExistsE (env : Env) (fs : FS) (p : FPath) : Except String Bool :=
  if env.statFails then .error "stat failed" else .ok (dirExists fs p)

/-- Report the plugin's status for a user (`get_plugin_status`):
existence check, directory probe, module count, classification; an
error raised in the body is caught by the operation's handler and
reported as status "error" with the detail; the state is never
mutated. -/
def get_plugin_status (env : Env) (user_id : String) (w : World) :
    World × StatusResult :=
  match check_existing_plugin env user_id w.db with
  | .found plugin_id info =>
    let user_plugin_dir := userPluginDirPath user_id
    match dirExistsE env w.fs user_plugin_dir with
    | .error e =>
      (w, { «exists» := false, status := "error", error := some e })
    | .ok files_exist =>
      let modules_status := check_modules_status env user_id plugin_id w.db
      let status :=
        if files_exist && modules_status.all_loaded then "healthy"
        else if !files_exist then "files_missing"
        else if !modules_status.all_loaded then "modules_corrupted"
        else "unknown"
      (w, { «exists» := true
          , status := status
          , plugin_id := some plugin_id
          , plugin_info := some info
          , files_exist := some files_exist
          , modules_status := some modules_status
          , plugin_directory := some user_plugin_dir })
  | _ => (w, { «exists» := false, status := "not_installed" })

/-- Plugin rows a given user owns for this plugin's slug. -/
def pluginRowsFor (user_id : String) (db : DBState) : List PluginRow :=
  db.plugins.filter
    (fun p => p.user_id == user_id && p.plugin_slug == PLUGIN_DATA.plugin_slug)

/-- Module rows a given user owns. -/
def moduleRowsFor (user_id : String) (db : DBState) : List ModuleRow :=
  db.modules.filter (fun m => m.user_id == user_id)

lemma leadsTo_refl (p : FPath) : leadsTo p p = true := by
  induction p with
  | nil => rfl
  | cons a as ih => simp [leadsTo, ih]

lemma leadsTo_append_self (p q : FPath) : leadsTo p (p ++ q) = true := by
  induction p with
  | nil => rfl
  | cons a as ih => simp [leadsTo, ih]

lemma leadsTo_append_both (p a b : FPath) :
    leadsTo (p ++ a) (p ++ b) = leadsTo a b := by
  induction p with
  | nil => rfl
  | cons x xs ih => simp [leadsTo, ih]

lemma dirExists_iff_mem (fs : FS) (p : FPath) :
    dirExists fs p = true ↔ p ∈ fs.dirs := by
  simp [dirExists]

lemma fileExists_iff (fs : FS) (q : FPath) :
    fileExists fs q = true ↔ ∃ e ∈ fs.files, e.1 = q := by
  simp only [fileExists, readFile, Option.isSome_map, List.find?_isSome]
  simp

lemma dirExists_rmtree_self (fs : FS) (p : FPath) :
    dirExists (rmtree fs p) p = false := by
  rw [Bool.eq_false_iff]
  intro h
  rw [dirExists_iff_mem] at h
  simp only [rmtree, List.mem_filter] at h
  rcases h with ⟨_, hkeep⟩
  simp [leadsTo_refl] at hkeep

lemma dirExists_addDir_self (fs : FS) (p : FPath) :
    dirExists (addDir fs p) p = true := by
  unfold addDir
  by_cases h : dirExists fs p = true
  · simp [h]
  · rw [Bool.not_eq_true] at h
    rw [h]
    simp only [Bool.false_eq_true, if_false]
    rw [dirExists_iff_mem]
    exact List.mem_cons_self _ _

lemma dirExists_addDir_mono (fs : FS) (p q : FPath)
    (h : dirExists fs p = true) : dirExists (addDir fs q) p = true := by
  unfold addDir
  by_cases hq : dirExists fs q = true
  · simp [hq, h]
  · rw [Bool.not_eq_true] at hq
    rw [hq]
    simp only [Bool.false_eq_true, if_false]
    rw [dirExists_iff_mem] at h ⊢
    exact List.mem_cons_of_mem _ h

lemma dirExists_writeFile (fs : FS) (p q : FPath) (c : FileContent) :
    dirExists (writeFile fs q c) p = dirExists fs p := rfl

lemma readFile_writeFile_self (fs : FS) (p : FPath) (c : FileContent) :
    readFile (writeFile fs p c) p = some c := by
  simp [readFile, writeFile, List.find?]

lemma fileExists_writeFile_self (fs : FS) (p : FPath) (c : FileContent) :
    fileExists (writeFile fs p c) p = true := by
  simp [fileExists, readFile_writeFile_self]

lemma fileExists_writeFile_mono (fs : FS) (p q : FPath) (c : FileContent)
    (h : fileExists fs q = true) : fileExists (writeFile fs p c) q = true := by
  by_cases hpq : q = p
  · subst hpq; exact fileExists_writeFile_self fs q c
  · rw [fileExists_iff] at h ⊢
    rcases h with ⟨e, hmem, he⟩
    refine ⟨e, ?_, he⟩
    simp only [writeFile, List.mem_cons, List.mem_filter]
    right
    refine ⟨hmem, ?_⟩
    simp [he, hpq]

lemma dirExists_copyTree_mono (fs : FS) (s t p : FPath)
    (h : dirExists fs p = true) : dirExists (copyTree fs s t) p = true := by
  rw [dirExists_iff_mem] at h ⊢
  simp only [copyTree, List.mem_append]
  exact Or.inr h

lemma fileExists_copyTree_mono (fs : FS) (s t q : FPath)
    (h : fileExists fs q = true) : fileExists (copyTree fs s t) q = true := by
  classical
  rw [fileExists_iff] at h ⊢
  rcases h with ⟨e, hmem, he⟩
  set movedFiles := (fs.files.filter (fun e => leadsTo s e.1)).map
    (fun e => (t ++ e.1.drop s.length, e.2)) with hmv
  by_cases hclash : ∃ m ∈ movedFiles, m.1 = q
  · rcases hclash with ⟨m, hm, hq⟩
    exact ⟨m, by simp [copyTree, ← hmv, List.mem_append, hm], hq⟩
  · push_neg at hclash
    refine ⟨e, ?_, he⟩
    simp only [copyTree, ← hmv, List.mem_append]
    right
    rw [List.mem_filter]
    refine ⟨hmem, ?_⟩
    rw [List.all_eq_true]
    intro m hm
    have hne := hclash m hm
    have hne1 : m.1 ≠ e.1 := by rw [he]; exact hne
    simp [hne1]

lemma foldl_preserve {α β : Type} (step : β → α → β) (P : β → Prop)
    (hstep : ∀ b a, P b → P (step b a)) :
    ∀ (l : List α) (b : β), P b → P (l.foldl step b) := by
  intro l
  induction l with
  | nil => intro b hb; exact hb
  | cons a as ih => intro b hb; exact ih _ (hstep b a hb)

lemma copyOneFile_dir_mono (src tgt q : FPath) (acc : FS × List String)
    (f : String) (h : dirExists acc.1 q = true) :
    dirExists (copyOneFile src tgt acc f).1 q = true := by
  unfold copyOneFile
  cases hr : readFile acc.1 (src ++ [f]) with
  | none => simpa [hr] using h
  | some c => simpa [hr, dirExists_writeFile] using h

lemma copyOneFile_file_mono (src tgt q : FPath) (acc : FS × List String)
    (f : String) (h : fileExists acc.1 q = true) :
    fileExists (copyOneFile src tgt acc f).1 q = true := by
  unfold copyOneFile
  cases hr : readFile acc.1 (src ++ [f]) with
  | none => simpa [hr] using h
  | some c =>
    simp only [hr]
    exact fileExists_writeFile_mono _ _ _ _ h

lemma copyOneDir_dir_mono (src tgt q : FPath) (acc : FS × List String)
    (d : String) (h : dirExists acc.1 q = true) :
    dirExists (copyOneDir src tgt false acc d).1 q = true := by
  unfold copyOneDir
  by_cases hs : dirExists acc.1 (src ++ [d]) = true
  · simp only [hs, if_true, Bool.and_false]
    simp only [Bool.false_eq_true, if_false]
    exact dirExists_copyTree_mono _ _ _ _ h
  · rw [Bool.not_eq_true] at hs
    simp [hs, h]

lemma copyOneDir_file_mono (src tgt q : FPath) (acc : FS × List String)
    (d : String) (h : fileExists acc.1 q = true) :
    fileExists (copyOneDir src tgt false acc d).1 q = true := by
  unfold copyOneDir
  by_cases hs : dirExists acc.1 (src ++ [d]) = true
  · simp only [hs, if_true, Bool.and_false]
    simp only [Bool.false_eq_true, if_false]
    exact fileExists_copyTree_mono _ _ _ _ h
  · rw [Bool.not_eq_true] at hs
    simp [hs, h]

lemma copy_plugin_files_dir_mono (env : Env) (user_id : String)
    (target_dir : FPath) (fs : FS) (q : FPath)
    (h : dirExists fs q = true) :
    dirExists (copy_plugin_files env user_id target_dir fs false).1 q = true := by
  unfold copy_plugin_files
  by_cases hc : env.copyFails = true
  · simpa [hc] using h
  · rw [Bool.not_eq_true] at hc
    simp only [hc, Bool.false_eq_true, if_false, dirExists_writeFile]
    apply foldl_preserve (copyOneDir source_dir target_dir false)
      (fun acc => dirExists acc.1 q = true)
      (fun b a hb => copyOneDir_dir_mono _ _ _ _ _ hb)
    apply foldl_preserve (copyOneFile source_dir target_dir)
      (fun acc => dirExists acc.1 q = true)
      (fun b a hb => copyOneFile_dir_mono _ _ _ _ _ hb)
    exact h

lemma copy_plugin_files_success (env : Env) (user_id : String)
    (target_dir : FPath) (fs : FS) (hc : env.copyFails = false) :
    (copy_plugin_files env user_id target_dir fs false).2.success = true := by
  unfold copy_plugin_files
  simp [hc]

lemma copy_plugin_files_manifest (env : Env) (user_id : String)
    (target_dir : FPath) (fs : FS) (hc : env.copyFails = false) :
    readFile (copy_plugin_files env user_id target_dir fs false).1
      (target_dir ++ ["plugin_metadata.json"]) =
    some (.manifestFile (writtenManifest env user_id)) := by
  unfold copy_plugin_files
  simp only [hc, Bool.false_eq_true, if_false]
  exact readFile_writeFile_self _ _ _

lemma copy_plugin_files_pkg (env : Env) (user_id : String)
    (target_dir : FPath) (fs : FS) (hc : env.copyFails = false)
    (hsrc : fileExists fs (source_dir ++ ["package.json"]) = true) :
    fileExists (copy_plugin_files env user_id target_dir fs false).1
      (target_dir ++ ["package.json"]) = true := by
  unfold copy_plugin_files
  simp only [hc, Bool.false_eq_true, if_false]
  apply fileExists_writeFile_mono
  apply foldl_preserve (copyOneDir source_dir target_dir false)
    (fun acc => fileExists acc.1 (target_dir ++ ["package.json"]) = true)
    (fun b a hb => copyOneDir_file_mono _ _ _ _ _ hb)
  show fileExists ((["package.json", "README.md"].foldl
    (copyOneFile source_dir target_dir) (fs, []))).1
    (target_dir ++ ["package.json"]) = true
  simp only [List.foldl]
  apply copyOneFile_file_mono
  rw [fileExists] at hsrc
  rw [Option.isSome_iff_exists] at hsrc
  rcases hsrc with ⟨c, hcread⟩
  unfold copyOneFile
  simp only [hcread]
  exact fileExists_writeFile_self _ _ _

lemma create_database_records_committed (env : Env) (user_id : String)
    (s : Session) :
    (create_database_records env user_id s).1.committed = s.committed := by
  unfold create_database_records
  by_cases h1 : env.insertPluginFails = true
  · simp [h1]
  · rw [Bool.not_eq_true] at h1
    by_cases h2 : env.insertModuleFails = true
    · simp [h1, h2]
    · rw [Bool.not_eq_true] at h2
      simp [h1, h2, MODULE_DATA, insertOneModule]

lemma delete_database_records_committed (env : Env) (user_id plugin_id : String)
    (s : Session) :
    (delete_database_records env user_id plugin_id s).1.committed = s.committed := by
  unfold delete_database_records
  by_cases h1 : env.deleteModulesFails = true
  · simp [h1]
  · rw [Bool.not_eq_true] at h1
    by_cases h2 : env.deletePluginFails = true
    · simp [h1, h2]
    · rw [Bool.not_eq_true] at h2
      simp only [h1, h2, Bool.false_eq_true, if_false]
      split <;> rfl

lemma cleanupRun_dir_gone (env : Env) (fs : FS) (p : FPath)
    (hrm : env.rmFails = false) :
    dirExists (cleanupRun env fs p) p = false := by
  unfold cleanupRun cleanup_user_directory rmtreeE
  by_cases hd : dirExists fs p = true
  · simp [hd, hrm, dirExists_rmtree_self]
  · rw [Bool.not_eq_true] at hd
    simp [hd]

lemma check_existing_plugin_no_rows (env : Env) (user_id : String) (s : Session)
    (h : pluginRowsFor user_id s.pending = []) :
    check_existing_plugin env user_id s = .absent ∨
    check_existing_plugin env user_id s = .errored "check query failed" := by
  unfold check_existing_plugin
  by_cases hq : env.checkQueryFails = true
  · right; simp [hq]
  · rw [Bool.not_eq_true] at hq
    left
    simp only [hq, Bool.false_eq_true, if_false]
    have hfind : s.pending.plugins.find?
        (fun p => p.user_id == user_id && p.plugin_slug == PLUGIN_DATA.plugin_slug) = none := by
      rw [List.find?_eq_none]
      intro x hx
      unfold pluginRowsFor at h
      have := List.filter_eq_nil_iff.mp h x hx
      simpa using this
    rw [hfind]

lemma create_user_plugin_directory_ok (env : Env) (user_id : String) (fs : FS)
    (hmk : env.mkdirFails = false) :
    create_user_plugin_directory env user_id fs =
      ( addDir (addDir (addDir (addDir fs [user_id])
          ([user_id] ++ [PLUGIN_DATA.plugin_slug]))
          (([user_id] ++ [PLUGIN_DATA.plugin_slug]) ++ ["dist"]))
          (([user_id] ++ [PLUGIN_DATA.plugin_slug]) ++ ["assets"])
      , some ([user_id] ++ [PLUGIN_DATA.plugin_slug]) ) := by
  unfold create_user_plugin_directory
  simp [hmk]

lemma create_user_plugin_directory_makes_dir (env : Env) (user_id : String)
    (fs : FS) (hmk : env.mkdirFails = false) :
    dirExists (create_user_plugin_directory env user_id fs).1
      ([user_id] ++ [PLUGIN_DATA.plugin_slug]) = true := by
  rw [create_user_plugin_directory_ok env user_id fs hmk]
  apply dirExists_addDir_mono
  apply dirExists_addDir_mono
  exact dirExists_addDir_self _ _

lemma copy_plugin_files_fail (env : Env) (user_id : String) (d : FPath)
    (fs : FS) (upd : Bool) (hc : env.copyFails = true) :
    copy_plugin_files env user_id d fs upd =
      (fs, { success := false, error := some "copy failed" }) := by
  unfold copy_plugin_files
  simp [hc]

lemma create_database_records_fail1 (env : Env) (user_id : String) (s : Session)
    (h1 : env.insertPluginFails = true) :
    create_database_records env user_id s =
      (s, { success := false, error := some "insert plugin failed" }) := by
  unfold create_database_records
  simp [h1]

lemma create_database_records_fail2 (env : Env) (user_id : String) (s : Session)
    (h1 : env.insertPluginFails = false) (h2 : env.insertModuleFails = true) :
    create_database_records env user_id s =
      ( { s with pending := { s.pending with
            plugins := s.pending.plugins ++ [newPluginRow user_id env.now] } }
      , { success := false, error := some "insert module failed" } ) := by
  unfold create_database_records
  simp [h1, h2]

lemma create_database_records_ok (env : Env) (user_id : String) (s : Session)
    (h1 : env.insertPluginFails = false) (h2 : env.insertModuleFails = false) :
    (create_database_records env user_id s).1.pending.plugins =
      s.pending.plugins ++ [newPluginRow user_id env.now] ∧
    (create_database_records env user_id s).2.success = true := by
  unfold create_database_records
  simp [h1, h2, MODULE_DATA, insertOneModule]

lemma sessionRollback_committed (s : Session) :
    (sessionRollback s).committed = s.committed := rfl

lemma sessionCommit_committed (s : Session) :
    (sessionCommit s).committed = s.pending := rfl

/-- C1: for every user U, if install fails after the plugin directory
was created and before commit (at the copy-files, insert-records or
validate-manifest step), then the plugin directory for U is removed and
no plugin row and no module rows for U persist in the committed store
(the transaction is rolled back or never committed). Starting from a
fresh session with no rows for U, those three steps are the only
possible failure points, so the antecedent is exactly a non-success
result. -/
theorem install_failure_is_fully_compensated
    (env : Env) (user_id : String) (w : World)
    (hpend : w.db.pending = w.db.committed)
    (hpl : pluginRowsFor user_id w.db.committed = [])
    (hmod : moduleRowsFor user_id w.db.committed = [])
    (hmk : env.mkdirFails = false)
    (hrm : env.rmFails = false)
    (hfail : (install_plugin env user_id w).2.success = false) :
    dirExists (install_plugin env user_id w).1.fs (userPluginDirPath user_id) = false ∧
    pluginRowsFor user_id (install_plugin env user_id w).1.db.committed = [] ∧
    moduleRowsFor user_id (install_plugin env user_id w).1.db.committed = [] := by
  have hrows : pluginRowsFor user_id w.db.pending = [] := by rw [hpend]; exact hpl
  have hdirp : userPluginDirPath user_id = [user_id] ++ [PLUGIN_DATA.plugin_slug] := rfl
  obtain hc | hc := check_existing_plugin_no_rows env user_id w.db hrows
  all_goals (
    unfold install_plugin at hfail ⊢
    rw [hc] at hfail ⊢
    rw [create_user_plugin_directory_ok env user_id w.fs hmk] at hfail ⊢
    dsimp only at hfail ⊢
    by_cases hcp : env.copyFails = true
    · rw [copy_plugin_files_fail env user_id _ _ _ hcp]
      simp only [Bool.not_false, eq_self_iff_true, if_true]
      rw [hdirp]
      exact ⟨cleanupRun_dir_gone env _ _ hrm, hpl, hmod⟩
    · rw [Bool.not_eq_true] at hcp
      rw [copy_plugin_files_success env user_id _ _ hcp] at hfail ⊢
      simp only [Bool.not_true, Bool.false_eq_true, if_false] at hfail ⊢
      by_cases hdb : (create_database_records env user_id w.db).2.success = true
      · rw [hdb] at hfail ⊢
        simp only [Bool.not_true, Bool.false_eq_true, if_false] at hfail ⊢
        by_cases hv : (validate_installation env user_id
            ([user_id] ++ [PLUGIN_DATA.plugin_slug])
            (copy_plugin_files env user_id ([user_id] ++ [PLUGIN_DATA.plugin_slug])
              (addDir (addDir (addDir (addDir w.fs [user_id])
                ([user_id] ++ [PLUGIN_DATA.plugin_slug]))
                (([user_id] ++ [PLUGIN_DATA.plugin_slug]) ++ ["dist"]))
                (([user_id] ++ [PLUGIN_DATA.plugin_slug]) ++ ["assets"]))
              false).1).valid = true
        · rw [hv] at hfail
          simp at hfail
        · rw [Bool.not_eq_true] at hv
          rw [hv]
          simp only [Bool.not_false, eq_self_iff_true, if_true]
          rw [hdirp]
          refine ⟨cleanupRun_dir_gone env _ _ hrm, ?_, ?_⟩
          · rw [sessionRollback_committed, create_database_records_committed]
            exact hpl
          · rw [sessionRollback_committed, create_database_records_committed]
            exact hmod
      · rw [Bool.not_eq_true] at hdb
        rw [hdb]
        simp only [Bool.not_false, eq_self_iff_true, if_true]
        rw [hdirp]
        refine ⟨cleanupRun_dir_gone env _ _ hrm, ?_, ?_⟩
        · rw [create_database_records_committed]
          exact hpl
        · rw [create_database_records_committed]
          exact hmod )

/-- Baseline environment with no raw-operation failures. -/
def envOk : Env :=
  { now := "2025-01-01 00:00:00"
  , mkdirFails := false
  , copyFails := false
  , insertPluginFails := false
  , insertModuleFails := false
  , deleteModulesFails := false
  , deletePluginFails := false
  , checkQueryFails := false
  , moduleQueryFails := false
  , statFails := false
  , rmFails := false }

/-- Empty initial world: a source tree holding `package.json`, no user
directories, an empty store, a fresh session. -/
def worldEmpty : World :=
  { fs := { dirs := [source_dir]
          , files := [(source_dir ++ ["package.json"], FileContent.plain)] }
  , db := { committed := { plugins := [], modules := [] }
          , pending := { plugins := [], modules := [] } } }

/-- Witness for C1 at a concrete input: the copy step fails and the
compensation really runs. -/
theorem install_failure_is_fully_compensated_witness :
    ({ envOk with copyFails := true } : Env).mkdirFails = false ∧
    (install_plugin { envOk with copyFails := true } "u1" worldEmpty).2.success = false ∧
    (dirExists (install_plugin { envOk with copyFails := true } "u1" worldEmpty).1.fs
        (userPluginDirPath "u1") = false ∧
      pluginRowsFor "u1"
        (install_plugin { envOk with copyFails := true } "u1" worldEmpty).1.db.committed = [] ∧
      moduleRowsFor "u1"
        (install_plugin { envOk with copyFails := true } "u1" worldEmpty).1.db.committed = []) :=
  ⟨rfl, by decide,
   install_failure_is_fully_compensated { envOk with copyFails := true } "u1" worldEmpty
     rfl rfl rfl rfl rfl (by decide)⟩

/-- C2: for every user U for whom a plugin row already exists, a further
install call fails with a conflict error carrying the existing plugin
id, and it creates no directory and inserts no rows (the world is
returned unchanged). -/
theorem install_conflict_when_already_installed
    (env : Env) (user_id : String) (w : World) (r : PluginRow)
    (hq : env.checkQueryFails = false)
    (hr : w.db.pending.plugins.find?
      (fun p => p.user_id == user_id && p.plugin_slug == PLUGIN_DATA.plugin_slug) = some r) :
    install_plugin env user_id w =
      (w, { success := false
          , error := some ("Plugin already installed for user " ++ user_id)
          , plugin_id := some r.id }) := by
  unfold install_plugin check_existing_plugin
  simp [hq, hr]

/-- A world in which the plugin is already installed for user `u1`:
plugin row, module row, matching directory tree and manifest, all
committed and visible to the session. -/
def worldInstalled : World :=
  { fs := { dirs := [ source_dir, ["u1"], ["u1", "BrainDriveNetwork"]
                    , ["u1", "BrainDriveNetwork", "dist"]
                    , ["u1", "BrainDriveNetwork", "assets"] ]
          , files := [ (source_dir ++ ["package.json"], FileContent.plain)
                     , (["u1", "BrainDriveNetwork", "package.json"], FileContent.plain)
                     , (["u1", "BrainDriveNetwork", "plugin_metadata.json"],
                        FileContent.manifestFile (writtenManifest envOk "u1")) ] }
  , db := { committed :=
              { plugins := [newPluginRow "u1" "2025-01-01 00:00:00"]
              , modules := [newModuleRow "u1" "2025-01-01 00:00:00"
                  (MODULE_DATA.get ⟨0, by decide⟩)] }
          , pending :=
              { plugins := [newPluginRow "u1" "2025-01-01 00:00:00"]
              , modules := [newModuleRow "u1" "2025-01-01 00:00:00"
                  (MODULE_DATA.get ⟨0, by decide⟩)] } } }

/-- Witness for C2 at a concrete input. -/
theorem install_conflict_when_already_installed_witness :
    envOk.checkQueryFails = false ∧
    install_plugin envOk "u1" worldInstalled =
      (worldInstalled,
       { success := false
       , error := some ("Plugin already installed for user " ++ "u1")
       , plugin_id := some (newPluginRow "u1" "2025-01-01 00:00:00").id }) :=
  ⟨rfl, install_conflict_when_already_installed envOk "u1" worldInstalled
    (newPluginRow "u1" "2025-01-01 00:00:00") rfl (by decide)⟩

/-- A world holding one orphan module row for user `u1` and no plugin
row, committed and visible to a fresh session: the configuration in
which the plugin-row delete affects zero rows. -/
def worldOrphanModule : World :=
  { fs := { dirs := [ ["u1"], ["u1", "BrainDriveNetwork"] ], files := [] }
  , db := { committed :=
              { plugins := []
              , modules := [newModuleRow "u1" "2025-01-01 00:00:00"
                  (MODULE_DATA.get ⟨0, by decide⟩)] }
          , pending :=
              { plugins := []
              , modules := [newModuleRow "u1" "2025-01-01 00:00:00"
                  (MODULE_DATA.get ⟨0, by decide⟩)] } } }

/-- Counterexample for C3: at this concrete input the plugin-row delete
affects zero rows and the operation fails as claimed, but the
transaction is NOT rolled back: the module deletion executed first is
still present (uncommitted) in the session's pending state, which
therefore differs from the committed state. -/
theorem delete_zero_rowcount_not_rolled_back :
    (delete_plugin_records_phase envOk "u1" (derivedPluginId "u1")
        worldOrphanModule).2.success = false ∧
    (delete_plugin_records_phase envOk "u1" (derivedPluginId "u1")
        worldOrphanModule).1.db.pending.modules = [] ∧
    (delete_plugin_records_phase envOk "u1" (derivedPluginId "u1")
        worldOrphanModule).1.db.committed.modules ≠ [] ∧
    (delete_plugin_records_phase envOk "u1" (derivedPluginId "u1")
        worldOrphanModule).1.db.pending ≠
      (delete_plugin_records_phase envOk "u1" (derivedPluginId "u1")
        worldOrphanModule).1.db.committed := by
  refine ⟨by decide, by decide, by decide, by decide⟩

/-- C3 (amended): for every user U, if during the record phase of delete
the plugin-row delete affects zero rows, the record-deletion step
reports failure "Plugin not found or not owned by user", the whole
delete operation fails without removing the directory, and the earlier
module-row deletions never reach the committed store — the operation
returns without committing (though also without issuing a rollback: the
deletions stay in the uncommitted pending state). -/
theorem delete_zero_rowcount_fails_uncommitted
    (env : Env) (user_id plugin_id : String) (w : World)
    (hnone : w.db.pending.plugins.filter
      (fun p => p.id == plugin_id && p.user_id == user_id) = [])
    (hm : env.deleteModulesFails = false)
    (hp : env.deletePluginFails = false) :
    (delete_plugin_records_phase env user_id plugin_id w).2.success = false ∧
    (delete_plugin_records_phase env user_id plugin_id w).2.error =
      some "Plugin not found or not owned by user" ∧
    (delete_plugin_records_phase env user_id plugin_id w).1.fs = w.fs ∧
    (delete_plugin_records_phase env user_id plugin_id w).1.db.committed =
      w.db.committed := by
  unfold delete_plugin_records_phase delete_database_records
  simp [hm, hp, hnone]

/-- Witness for C3's amended theorem at a concrete input. -/
theorem delete_zero_rowcount_fails_uncommitted_witness :
    worldOrphanModule.db.pending.plugins.filter
      (fun p => p.id == derivedPluginId "u1" && p.user_id == "u1") = [] ∧
    ((delete_plugin_records_phase envOk "u1" (derivedPluginId "u1")
        worldOrphanModule).2.success = false ∧
      (delete_plugin_records_phase envOk "u1" (derivedPluginId "u1")
        worldOrphanModule).2.error = some "Plugin not found or not owned by user" ∧
      (delete_plugin_records_phase envOk "u1" (derivedPluginId "u1")
        worldOrphanModule).1.fs = worldOrphanModule.fs ∧
      (delete_plugin_records_phase envOk "u1" (derivedPluginId "u1")
        worldOrphanModule).1.db.committed = worldOrphanModule.db.committed) :=
  ⟨by decide, delete_zero_rowcount_fails_uncommitted envOk "u1"
    (derivedPluginId "u1") worldOrphanModule (by decide) rfl rfl⟩

lemma get_plugin_status_world_unchanged (env : Env) (user_id : String) (w : World) :
    (get_plugin_status env user_id w).1 = w := by
  unfold get_plugin_status dirExistsE
  cases hc : check_existing_plugin env user_id w.db with
  | found pid info =>
    by_cases hst : env.statFails = true
    · simp [hst]
    · rw [Bool.not_eq_true] at hst
      simp [hst]
  | absent => simp
  | errored m => simp

lemma get_plugin_status_found_status (env : Env) (user_id : String) (w : World)
    (r : PluginRow)
    (hq : env.checkQueryFails = false)
    (hst : env.statFails = false)
    (hr : w.db.pending.plugins.find?
      (fun p => p.user_id == user_id && p.plugin_slug == PLUGIN_DATA.plugin_slug) = some r) :
    (get_plugin_status env user_id w).2.status =
      (if dirExists w.fs (userPluginDirPath user_id) &&
          (check_modules_status env user_id r.id w.db).all_loaded then "healthy"
       else if !dirExists w.fs (userPluginDirPath user_id) then "files_missing"
       else if !(check_modules_status env user_id r.id w.db).all_loaded then
         "modules_corrupted"
       else "unknown") := by
  unfold get_plugin_status check_existing_plugin dirExistsE
  simp [hq, hst, hr]

/-- C4: for every installed user U (the existence check finds a row) on
the non-exception path, status is classified as: healthy when the
directory exists and the actual module-row count equals the static
expected count; files_missing whenever the directory is absent,
regardless of module state; modules_corrupted when the directory exists
but the count mismatches; and the residual unknown branch is never
produced. -/
theorem status_classifies_installations
    (env : Env) (user_id : String) (w : World) (r : PluginRow)
    (hq : env.checkQueryFails = false)
    (hst : env.statFails = false)
    (hr : w.db.pending.plugins.find?
      (fun p => p.user_id == user_id && p.plugin_slug == PLUGIN_DATA.plugin_slug) = some r) :
    (env.moduleQueryFails = false →
      dirExists w.fs (userPluginDirPath user_id) = true →
      (((w.db.pending.modules.filter
          (fun m => m.plugin_id == r.id && m.user_id == user_id)).length =
            MODULE_DATA.length →
        (get_plugin_status env user_id w).2.status = "healthy") ∧
       ((w.db.pending.modules.filter
          (fun m => m.plugin_id == r.id && m.user_id == user_id)).length ≠
            MODULE_DATA.length →
        (get_plugin_status env user_id w).2.status = "modules_corrupted"))) ∧
    (dirExists w.fs (userPluginDirPath user_id) = false →
      (get_plugin_status env user_id w).2.status = "files_missing") ∧
    (get_plugin_status env user_id w).2.status ≠ "unknown" := by
  rw [get_plugin_status_found_status env user_id w r hq hst hr]
  refine ⟨?_, ?_, ?_⟩
  · intro hmq hfe
    constructor
    · intro hcount
      have hal : (check_modules_status env user_id r.id w.db).all_loaded = true := by
        unfold check_modules_status
        simp [hmq, hcount]
      rw [hfe, hal]
      simp
    · intro hcount
      have hal : (check_modules_status env user_id r.id w.db).all_loaded = false := by
        unfold check_modules_status
        simp [hmq]
        omega
      rw [hfe, hal]
      simp
  · intro hfe
    rw [hfe]
    simp
  · cases hfe : dirExists w.fs (userPluginDirPath user_id) <;>
      cases hal : (check_modules_status env user_id r.id w.db).all_loaded <;>
      simp [hfe, hal]

/-- Witness for C4 at a concrete input: the installed world is healthy. -/
theorem status_classifies_installations_witness :
    envOk.checkQueryFails = false ∧
    worldInstalled.db.pending.plugins.find?
      (fun p => p.user_id == "u1" && p.plugin_slug == PLUGIN_DATA.plugin_slug) =
        some (newPluginRow "u1" "2025-01-01 00:00:00") ∧
    dirExists worldInstalled.fs (userPluginDirPath "u1") = true ∧
    (get_plugin_status envOk "u1" worldInstalled).2.status = "healthy" :=
  ⟨rfl, by decide, by decide,
   ((status_classifies_installations envOk "u1" worldInstalled
      (newPluginRow "u1" "2025-01-01 00:00:00") rfl rfl (by decide)).1
     rfl (by decide)).1 (by decide)⟩

/-- Counterexample for C5: with the plugin installed, an internal error
raised by the existence-check query (caught inside the helper, which
reports non-existence) makes status return `not_installed` with no error
detail — not a result with status `error`, contradicting the claim that
every internal error raised during status is reported as status
`error`. -/
theorem status_check_error_not_reported_as_error :
    ({ envOk with checkQueryFails := true } : Env).checkQueryFails = true ∧
    (get_plugin_status { envOk with checkQueryFails := true } "u1"
        worldInstalled).2.status = "not_installed" ∧
    (get_plugin_status { envOk with checkQueryFails := true } "u1"
        worldInstalled).2.status ≠ "error" ∧
    (get_plugin_status { envOk with checkQueryFails := true } "u1"
        worldInstalled).2.error = none := by
  refine ⟨rfl, by decide, by decide, by decide⟩

/-- C5 (amended): status(U) never mutates filesystem or store state and
never propagates an exception; an error raised in the status operation's
own body (the directory probe, after a successful existence check) is
caught at the operation boundary and reported as status `error` with the
error detail; an error raised inside the existence-check helper is
caught there and absorbed into the classification, yielding
`not_installed` rather than `error`. -/
theorem status_error_handling
    (env : Env) (user_id : String) (w : World) (r : PluginRow)
    (hr : w.db.pending.plugins.find?
      (fun p => p.user_id == user_id && p.plugin_slug == PLUGIN_DATA.plugin_slug) = some r) :
    (get_plugin_status env user_id w).1 = w ∧
    (env.checkQueryFails = false → env.statFails = true →
      (get_plugin_status env user_id w).2 =
        { «exists» := false, status := "error", error := some "stat failed" }) ∧
    (env.checkQueryFails = true →
      (get_plugin_status env user_id w).2 =
        { «exists» := false, status := "not_installed" }) := by
  refine ⟨get_plugin_status_world_unchanged env user_id w, ?_, ?_⟩
  · intro hq hst
    unfold get_plugin_status check_existing_plugin dirExistsE
    simp [hq, hst, hr]
  · intro hq
    unfold get_plugin_status check_existing_plugin
    simp [hq]

/-- Witness for C5's amended theorem at a concrete input: a failing
directory probe yields status `error` with the detail. -/
theorem status_error_handling_witness :
    worldInstalled.db.pending.plugins.find?
      (fun p => p.user_id == "u1" && p.plugin_slug == PLUGIN_DATA.plugin_slug) =
        some (newPluginRow "u1" "2025-01-01 00:00:00") ∧
    (get_plugin_status { envOk with statFails := true } "u1" worldInstalled).1 =
      worldInstalled ∧
    (get_plugin_status { envOk with statFails := true } "u1" worldInstalled).2 =
      { «exists» := false, status := "error", error := some "stat failed" } :=
  ⟨by decide,
   (status_error_handling { envOk with statFails := true } "u1" worldInstalled
     (newPluginRow "u1" "2025-01-01 00:00:00") (by decide)).1,
   (status_error_handling { envOk with statFails := true } "u1" worldInstalled
     (newPluginRow "u1" "2025-01-01 00:00:00") (by decide)).2.1 rfl rfl⟩

/-- C6: for every user U with no plugin record, delete fails with the
not-found error and performs no filesystem mutation and no record
deletion (the world is returned unchanged). -/
theorem delete_not_found_is_pure
    (env : Env) (user_id : String) (w : World)
    (h : pluginRowsFor user_id w.db.pending = []) :
    delete_plugin env user_id w =
      (w, { success := false, error := some "Plugin not found for user" }) := by
  obtain hc | hc := check_existing_plugin_no_rows env user_id w.db h
  all_goals (unfold delete_plugin; rw [hc])

/-- Witness for C6 at a concrete input. -/
theorem delete_not_found_is_pure_witness :
    pluginRowsFor "u2" worldEmpty.db.pending = [] ∧
    delete_plugin envOk "u2" worldEmpty =
      (worldEmpty, { success := false, error := some "Plugin not found for user" }) :=
  ⟨rfl, delete_not_found_is_pure envOk "u2" worldEmpty rfl⟩

/-- Evaluate whether an exceptional computation returned normally. -/
def exceptIsOk : Except String FS → Bool
  | .ok _ => true
  | .error _ => false

/-- C7: the directory-removal compensation step always returns normally
(never raises — a removal failure is caught and swallowed), is a no-op
when the directory is absent, and recursively deletes the whole tree
when it is present and removal succeeds. -/
theorem cleanup_directory_safe
    (env : Env) (fs : FS) (p : FPath) :
    exceptIsOk (cleanup_user_directory env fs p) = true ∧
    (dirExists fs p = false → cleanup_user_directory env fs p = Except.ok fs) ∧
    (env.rmFails = true → cleanup_user_directory env fs p = Except.ok fs) ∧
    (env.rmFails = false → dirExists fs p = true →
      cleanup_user_directory env fs p = Except.ok (rmtree fs p) ∧
      dirExists (rmtree fs p) p = false) := by
  unfold cleanup_user_directory rmtreeE
  refine ⟨?_, ?_, ?_, ?_⟩
  · by_cases hd : dirExists fs p = true
    · by_cases hrm : env.rmFails = true
      · simp [hd, hrm, exceptIsOk]
      · rw [Bool.not_eq_true] at hrm
        simp [hd, hrm, exceptIsOk]
    · rw [Bool.not_eq_true] at hd
      simp [hd, exceptIsOk]
  · intro hd
    simp [hd]
  · intro hrm
    by_cases hd : dirExists fs p = true
    · simp [hd, hrm]
    · rw [Bool.not_eq_true] at hd
      simp [hd]
  · intro hrm hd
    exact ⟨by simp [hd, hrm], dirExists_rmtree_self fs p⟩

/-- Witness for C7 at a concrete input: the installed directory is
really removed, together with its whole tree. -/
theorem cleanup_directory_safe_witness :
    envOk.rmFails = false ∧
    dirExists worldInstalled.fs ["u1", "BrainDriveNetwork"] = true ∧
    exceptIsOk (cleanup_user_directory envOk worldInstalled.fs
      ["u1", "BrainDriveNetwork"]) = true ∧
    cleanup_user_directory envOk worldInstalled.fs ["u1", "BrainDriveNetwork"] =
      Except.ok (rmtree worldInstalled.fs ["u1", "BrainDriveNetwork"]) ∧
    dirExists (rmtree worldInstalled.fs ["u1", "BrainDriveNetwork"])
      ["u1", "BrainDriveNetwork"] = false :=
  ⟨rfl, by decide,
   (cleanup_directory_safe envOk worldInstalled.fs ["u1", "BrainDriveNetwork"]).1,
   ((cleanup_directory_safe envOk worldInstalled.fs
      ["u1", "BrainDriveNetwork"]).2.2.2 rfl (by decide)).1,
   ((cleanup_directory_safe envOk worldInstalled.fs
      ["u1", "BrainDriveNetwork"]).2.2.2 rfl (by decide)).2⟩

lemma fileExists_addDir (fs : FS) (p q : FPath) :
    fileExists (addDir fs q) p = fileExists fs p := by
  unfold addDir
  split <;> rfl

lemma validate_installation_after_copy (env : Env) (user_id : String)
    (target_dir : FPath) (fs : FS)
    (hc : env.copyFails = false)
    (hpkg : fileExists (copy_plugin_files env user_id target_dir fs false).1
      (target_dir ++ ["package.json"]) = true) :
    validate_installation env user_id target_dir
      (copy_plugin_files env user_id target_dir fs false).1 =
      { valid := true } := by
  have hman := copy_plugin_files_manifest env user_id target_dir fs hc
  have hmanx : fileExists (copy_plugin_files env user_id target_dir fs false).1
      (target_dir ++ ["plugin_metadata.json"]) = true := by
    rw [fileExists, hman]
    rfl
  unfold validate_installation
  simp only [hpkg, hmanx, Bool.not_true, List.filter, List.filter_nil,
    List.isEmpty_nil, Bool.not_false, Bool.false_eq_true, if_false, hman]
  simp [writtenManifest]

/-- C8: for every user U, writing the manifest during file copy and then
reading it back yields `installed_for_user` equal to U and a module list
of the same length as the static descriptor list; in particular the
post-install validation's user-id check succeeds on the manifest the
same install just wrote. -/
theorem manifest_round_trip
    (env : Env) (user_id : String) (target_dir : FPath) (fs : FS)
    (hc : env.copyFails = false) :
    (copy_plugin_files env user_id target_dir fs false).2.success = true ∧
    readFile (copy_plugin_files env user_id target_dir fs false).1
      (target_dir ++ ["plugin_metadata.json"]) =
      some (FileContent.manifestFile (writtenManifest env user_id)) ∧
    (writtenManifest env user_id).installed_for_user = user_id ∧
    (writtenManifest env user_id).module_data.length = MODULE_DATA.length ∧
    (validate_installation env user_id target_dir
      (copy_plugin_files env user_id target_dir fs false).1).error ≠
      some "Metadata file has incorrect user ID" := by
  refine ⟨copy_plugin_files_success env user_id target_dir fs hc,
    copy_plugin_files_manifest env user_id target_dir fs hc, rfl, rfl, ?_⟩
  by_cases hpkg : fileExists (copy_plugin_files env user_id target_dir fs false).1
      (target_dir ++ ["package.json"]) = true
  · rw [validate_installation_after_copy env user_id target_dir fs hc hpkg]
    simp
  · rw [Bool.not_eq_true] at hpkg
    have hman := copy_plugin_files_manifest env user_id target_dir fs hc
    have hmanx : fileExists (copy_plugin_files env user_id target_dir fs false).1
        (target_dir ++ ["plugin_metadata.json"]) = true := by
      rw [fileExists, hman]
      rfl
    unfold validate_installation
    simp only [hpkg, hmanx, Bool.not_true, Bool.not_false, List.filter,
      List.filter_nil, List.isEmpty_cons, if_true]
    decide

/-- Witness for C8 at a concrete input. -/
theorem manifest_round_trip_witness :
    envOk.copyFails = false ∧
    readFile (copy_plugin_files envOk "u1" ["u1", "BrainDriveNetwork"]
        worldEmpty.fs false).1
      (["u1", "BrainDriveNetwork"] ++ ["plugin_metadata.json"]) =
      some (FileContent.manifestFile (writtenManifest envOk "u1")) ∧
    (writtenManifest envOk "u1").installed_for_user = "u1" ∧
    (writtenManifest envOk "u1").module_data.length = MODULE_DATA.length :=
  ⟨rfl,
   (manifest_round_trip envOk "u1" ["u1", "BrainDriveNetwork"]
     worldEmpty.fs rfl).2.1,
   (manifest_round_trip envOk "u1" ["u1", "BrainDriveNetwork"]
     worldEmpty.fs rfl).2.2.1,
   (manifest_round_trip envOk "u1" ["u1", "BrainDriveNetwork"]
     worldEmpty.fs rfl).2.2.2.1⟩

/-- C9: for every installed user U on the non-exception path of status,
the resulting status is one of healthy, files_missing or
modules_corrupted — the unknown branch is unreachable, because the three
preceding conditions cover all combinations of the two probed
booleans. -/
theorem status_unknown_branch_unreachable
    (env : Env) (user_id : String) (w : World) (r : PluginRow)
    (hq : env.checkQueryFails = false)
    (hst : env.statFails = false)
    (hr : w.db.pending.plugins.find?
      (fun p => p.user_id == user_id && p.plugin_slug == PLUGIN_DATA.plugin_slug) = some r) :
    (get_plugin_status env user_id w).2.status = "healthy" ∨
    (get_plugin_status env user_id w).2.status = "files_missing" ∨
    (get_plugin_status env user_id w).2.status = "modules_corrupted" := by
  rw [get_plugin_status_found_status env user_id w r hq hst hr]
  cases hfe : dirExists w.fs (userPluginDirPath user_id) <;>
    cases hal : (check_modules_status env user_id r.id w.db).all_loaded <;>
    simp [hfe, hal]

/-- Witness for C9 at a concrete input. -/
theorem status_unknown_branch_unreachable_witness :
    envOk.checkQueryFails = false ∧
    ((get_plugin_status envOk "u1" worldInstalled).2.status = "healthy" ∨
     (get_plugin_status envOk "u1" worldInstalled).2.status = "files_missing" ∨
     (get_plugin_status envOk "u1" worldInstalled).2.status = "modules_corrupted") :=
  ⟨rfl, status_unknown_branch_unreachable envOk "u1" worldInstalled
    (newPluginRow "u1" "2025-01-01 00:00:00") rfl rfl (by decide)⟩

/-- C10: if the existence-check query itself raises, the check reports
non-existence (with the error attached), and install treats this the
same as "not installed": it proceeds to create the directory, insert the
records and commit instead of failing the operation. -/
theorem check_error_treated_as_not_installed
    (env : Env) (user_id : String) (w : World)
    (hq : env.checkQueryFails = true)
    (hmk : env.mkdirFails = false)
    (hcp : env.copyFails = false)
    (h1 : env.insertPluginFails = false)
    (h2 : env.insertModuleFails = false)
    (hsrc : fileExists w.fs (source_dir ++ ["package.json"]) = true) :
    check_existing_plugin env user_id w.db =
      CheckResult.errored "check query failed" ∧
    (install_plugin env user_id w).2.success = true ∧
    dirExists (install_plugin env user_id w).1.fs (userPluginDirPath user_id) = true ∧
    pluginRowsFor user_id (install_plugin env user_id w).1.db.committed ≠ [] := by
  have hc : check_existing_plugin env user_id w.db =
      CheckResult.errored "check query failed" := by
    unfold check_existing_plugin
    simp [hq]
  have hdb := create_database_records_ok env user_id w.db h1 h2
  refine ⟨hc, ?_⟩
  unfold install_plugin
  rw [hc, create_user_plugin_directory_ok env user_id w.fs hmk]
  dsimp only
  rw [copy_plugin_files_success env user_id _ _ hcp]
  simp only [Bool.not_true, Bool.false_eq_true, if_false]
  rw [hdb.2]
  simp only [Bool.not_true, Bool.false_eq_true, if_false]
  have hsrc1 : fileExists (addDir (addDir (addDir (addDir w.fs [user_id])
      ([user_id] ++ [PLUGIN_DATA.plugin_slug]))
      (([user_id] ++ [PLUGIN_DATA.plugin_slug]) ++ ["dist"]))
      (([user_id] ++ [PLUGIN_DATA.plugin_slug]) ++ ["assets"]))
      (source_dir ++ ["package.json"]) = true := by
    rw [fileExists_addDir, fileExists_addDir, fileExists_addDir, fileExists_addDir]
    exact hsrc
  rw [validate_installation_after_copy env user_id _ _ hcp
    (copy_plugin_files_pkg env user_id _ _ hcp hsrc1)]
  simp only [Bool.not_true, Bool.false_eq_true, if_false]
  refine ⟨by trivial, ?_, ?_⟩
  · apply copy_plugin_files_dir_mono
    apply dirExists_addDir_mono
    apply dirExists_addDir_mono
    exact dirExists_addDir_self _ _
  · rw [sessionCommit_committed]
    unfold pluginRowsFor
    rw [hdb.1, List.filter_append]
    simp [newPluginRow]

/-- Witness for C10 at a concrete input. -/
theorem check_error_treated_as_not_installed_witness :
    ({ envOk with checkQueryFails := true } : Env).checkQueryFails = true ∧
    fileExists worldEmpty.fs (source_dir ++ ["package.json"]) = true ∧
    (install_plugin { envOk with checkQueryFails := true } "u1"
        worldEmpty).2.success = true ∧
    dirExists (install_plugin { envOk with checkQueryFails := true } "u1"
        worldEmpty).1.fs (userPluginDirPath "u1") = true ∧
    pluginRowsFor "u1" (install_plugin { envOk with checkQueryFails := true } "u1"
        worldEmpty).1.db.committed ≠ [] :=
  ⟨rfl, by decide,
   (check_error_treated_as_not_installed { envOk with checkQueryFails := true }
     "u1" worldEmpty rfl rfl rfl rfl rfl (by decide)).2.1,
   (check_error_treated_as_not_installed { envOk with checkQueryFails := true }
     "u1" worldEmpty rfl rfl rfl rfl rfl (by decide)).2.2.1,
   (check_error_treated_as_not_installed { envOk with checkQueryFails := true }
     "u1" worldEmpty rfl rfl rfl rfl rfl (by decide)).2.2.2⟩
